import Mathlib

/-!
Verification development for the `contractpdf` service
(`src/contractpdf.py`): a single-file FastAPI application that validates a
contract request, picks a boilerplate clause, has an external
text-completion service refine it, substitutes it into a per-type template,
renders a PDF and uploads it.

The Python code is shallowly embedded:

* Strings are Lean `String`s / `List Char`; Python string formatting of an
  `Optional[str]` field renders `None` as the literal text `"None"`, which
  `pyOptionalField` reproduces.
* The regular-expression check in `validate_duration`
  (`re.match(r'^\d+\s+(year|years|month|months|day|days)$', v)`) is embedded
  as an executable matcher `duration_match_list`.  Python semantics that the
  matcher reproduces: `re.match` anchors at the start, and `$` (without
  `re.MULTILINE`) matches at the end of the string *or just before a single
  trailing newline*.  Greedy matching of `\d+` and `\s+` is equivalent to
  full backtracking here because the character classes `\d`, `\s` and the
  first letters of the alternation (`y`, `m`, `d`) are pairwise disjoint.
  The character classes are restricted to their ASCII fragment (Python's
  `\d`/`\s` additionally accept some non-ASCII digits and spaces; both the
  code's pattern and the spec's pattern use the same classes, so the
  restriction affects both sides of the comparison identically).
* External effects (the OpenAI chat completion, writing the PDF file,
  the HTTP upload) are passed in as explicit outcome arguments
  (`Except`-valued oracles); the JSON body of the upload response is a
  record of the two fields the code reads.
* Exceptions are `Except.error` carrying the Python exception's message
  (`str(e)`).
-/

namespace ContractPdf

/-- ASCII fragment of Python's regex class `\d`. -/
def isPyDigit (c : Char) : Bool := c.isDigit

/-- ASCII fragment of Python's regex class `\s` (and of `str.strip`'s
whitespace set): space, tab, newline, carriage return, vertical tab,
form feed. -/
def isPySpace (c : Char) : Bool :=
  c == ' ' || c == '\t' || c == '\n' || c == '\x0d' || c == '\x0b' || c == '\x0c'

/-- The alternation `(year|years|month|months|day|days)` of the duration
pattern. -/
def durationUnits : List String :=
  ["year", "years", "month", "months", "day", "days"]

/-- Embedding of `re.match(r'^\d+\s+(year|years|month|months|day|days)$', v)`
from `ContractRequest.validate_duration` (src/contractpdf.py:39), as a
whole-input matcher on the character list of `v`.  The final disjunct
`r2 = u.data ++ [newline]` embeds Python's `$`, which also matches just
before one trailing newline. -/
def duration_match_list (cs : List Char) : Bool :=
  let r1 := cs.dropWhile isPyDigit
  let r2 := r1.dropWhile isPySpace
  !(cs.takeWhile isPyDigit).isEmpty && !(r1.takeWhile isPySpace).isEmpty &&
    durationUnits.any (fun u => r2 == u.data || r2 == u.data ++ ['\n'])

/-- The spec's reading of the same pattern: a *whole-string* match of
`\d+\s+(year|years|month|months|day|days)`, with no allowance for a
trailing newline.  This definition follows the spec's words
("matches the pattern ... exactly (whole-string match)") and is compared
against the code's `duration_match_list`. -/
def duration_whole_list (cs : List Char) : Bool :=
  let r1 := cs.dropWhile isPyDigit
  let r2 := r1.dropWhile isPySpace
  !(cs.takeWhile isPyDigit).isEmpty && !(r1.takeWhile isPySpace).isEmpty &&
    durationUnits.any (fun u => r2 == u.data)

/-- `ContractRequest.validate_party_names` (src/contractpdf.py:31-35):
`if not v or len(v) < 2: raise ValueError(...)`.  For a string `v`,
`not v` is truthy exactly when `v` is empty. -/
def validate_party_names (v : String) : Except String String :=
  if v = "" ∨ v.length < 2 then
    Except.error "Party names must be valid and at least 2 characters long"
  else Except.ok v

/-- `ContractRequest.validate_duration` (src/contractpdf.py:37-41). -/
def validate_duration (v : String) : Except String String :=
  if duration_match_list v.data then Except.ok v
  else Except.error "Duration must be in the format number year/years/month/months/day/days"

/-- The nine values of the `Literal` type of `ContractRequest.contract_type`
(src/contractpdf.py:17-20); pydantic rejects any other string before the
endpoint body runs. -/
def contractTypes : List String :=
  ["nda", "contractor", "sla", "partnership", "sales",
   "employment", "lease", "mou", "noncompete"]

/-- `ContractRequest` (src/contractpdf.py:16-29).  `contract_type` is kept
as a `String` so that the behaviour of the template lookup on *unvalidated*
types is also expressible; validation is the predicate
`contract_type ∈ contractTypes`. -/
structure ContractRequest where
  contract_type : String
  party_a : String
  party_b : String
  duration : String
  clause_query : String
  property_address : Option String := none
  position : Option String := none
  goods_description : Option String := none
  scope : Option String := none
  jurisdiction : String := "New Delhi"
deriving DecidableEq, Repr

/-- The `specialized_clause_banks` dict of `retrieve_clause`
(src/contractpdf.py:45-61), as the function `dict.get` denotes (the keys
are pairwise distinct, so an if-chain is equivalent). -/
def specialized_clause_banks (t : String) : Option (List String) :=
  if t = "nda" then
    some
      ["All confidential information shall remain the exclusive property of the disclosing party and shall not be used for any purpose other than the intended business collaboration.",
       "Breach of confidentiality shall result in liquidated damages of INR 10,00,000 and potential legal action under Information Technology Act, 2000.",
       "Confidentiality obligations persist for five years post-termination of agreement."]
  else if t = "employment" then
    some
      ["The employee agrees to abide by the company's code of conduct and intellectual property guidelines as per Indian labor laws.",
       "Termination may occur with notice as specified in Industrial Disputes Act, 1947.",
       "Dispute resolution through mandatory arbitration under Arbitration and Conciliation Act, 1996."]
  else if t = "noncompete" then
    some
      ["The restricted period shall not exceed two years and shall be limited to the metropolitan areas where the employer conducts primary business.",
       "Compensation shall be provided to the employee during the non-compete period as per legal standards.",
       "The non-compete clause is subject to judicial review of reasonableness."]
  else none

/-- `default_clauses` of `retrieve_clause` (src/contractpdf.py:62-66). -/
def default_clauses : List String :=
  ["This Agreement shall be governed by the laws of India and subject to the jurisdiction of courts in New Delhi.",
   "All disputes shall be resolved through arbitration under the Arbitration and Conciliation Act, 1996.",
   "Each party shall bear its own legal costs unless otherwise specified by law."]

/-- `retrieve_clause` (src/contractpdf.py:44-68):
`clauses = specialized_clause_banks.get(contract_type, default_clauses)`
then `return clauses[0]`.  Python's `clauses[0]` raises `IndexError` on an
empty list, embedded as the `Except.error` branch. -/
def retrieve_clause (query : String) (contract_type : String) : Except String String :=
  let clauses := (specialized_clause_banks contract_type).getD default_clauses
  match clauses.head? with
  | some c => Except.ok c
  | none => Except.error "list index out of range"

/-- Python `str.strip()` restricted to the ASCII whitespace fragment:
drop leading and trailing whitespace.  Used for
`response.choices[0].message.content.strip()` (src/contractpdf.py:227). -/
def pyStrip (cs : List Char) : List Char :=
  ((cs.dropWhile isPySpace).reverse.dropWhile isPySpace).reverse

/-- `refine_clause_with_legal_expertise` (src/contractpdf.py:70-227).  The
prompt built from `clause` and the per-type `LEGAL_PROMPTS` entry only
feeds the external chat-completion call; the function's result is the
stripped `content` of that call's response.  The call's outcome is the
oracle `response`: `Except.error` if the call raised, otherwise the raw
content string. -/
def refine_clause_with_legal_expertise (clause : String) (contract_type : String)
    (response : Except String String) : Except String String :=
  match response with
  | Except.error e => Except.error e
  | Except.ok content => Except.ok ⟨pyStrip content.data⟩

/-- Python's f-string rendering of an `Optional[str]` field: `None` prints
as the text `None`. -/
def pyOptionalField : Option String → String
  | none => "None"
  | some s => s

/-- `get_legal_template` (src/contractpdf.py:230-255).  The
`legal_templates` dict lookup `legal_templates.get(T, "Invalid contract type.")`
is embedded as an if-chain over the (pairwise distinct) keys; each branch is
the corresponding f-string template, written out verbatim. -/
def get_legal_template (data : ContractRequest) (clause : String) : String :=
  let A := data.party_a
  let B := data.party_b
  let D := data.duration
  let J := data.jurisdiction
  let T := data.contract_type
  if T = "nda" then
    "NON-DISCLOSURE AGREEMENT\n\nThis Non-Disclosure Agreement is made between " ++ A ++
    " and " ++ B ++ ".\n\n1. Term: " ++ D ++
    "\n2. Confidentiality: All information exchanged shall be kept confidential.\n3. Legal Clause: " ++
    clause ++ "\n4. Jurisdiction: Governed by the laws of India, jurisdiction in " ++ J ++
    ".\n\nSigned: " ++ A ++ ", " ++ B
  else if T = "contractor" then
    "INDEPENDENT CONTRACTOR AGREEMENT\n\nThis agreement is made between " ++ A ++
    " and " ++ B ++ ".\n\n1. Duration: " ++ D ++
    "\n2. Role: Independent Contractor\n3. Legal Clause: " ++ clause ++
    "\n4. Jurisdiction: " ++ J ++ "\n\nSigned: " ++ A ++ ", " ++ B
  else if T = "sla" then
    "SERVICE LEVEL AGREEMENT\n\nThis agreement is between " ++ A ++ " and " ++ B ++
    ".\n\n1. Term: " ++ D ++ "\n2. Services: As per annexure\n3. Legal Clause: " ++ clause ++
    "\n4. Jurisdiction: " ++ J ++ "\n\nSigned: " ++ A ++ ", " ++ B
  else if T = "partnership" then
    "PARTNERSHIP AGREEMENT\n\nThis partnership is entered between " ++ A ++ " and " ++ B ++
    ".\n\n1. Term: " ++ D ++ "\n2. Terms: Equal stake and responsibility\n3. Legal Clause: " ++
    clause ++ "\n4. Jurisdiction: " ++ J ++ "\n\nSigned: " ++ A ++ ", " ++ B
  else if T = "sales" then
    "SALES AGREEMENT\n\nThis agreement is made between " ++ A ++ " (Seller) and " ++ B ++
    " (Buyer).\n\n1. Duration: " ++ D ++ "\n2. Goods/Services: " ++
    pyOptionalField data.goods_description ++ "\n3. Legal Clause: " ++ clause ++
    "\n4. Jurisdiction: " ++ J ++ "\n\nSigned: " ++ A ++ ", " ++ B
  else if T = "employment" then
    "EMPLOYMENT AGREEMENT\n\nThis employment agreement is made between " ++ A ++
    " and " ++ B ++ ".\n\n1. Position: " ++ pyOptionalField data.position ++
    "\n2. Duration: " ++ D ++ "\n3. Legal Clause: " ++ clause ++
    "\n4. Jurisdiction: " ++ J ++ "\n\nSigned: " ++ A ++ ", " ++ B
  else if T = "lease" then
    "LEASE AGREEMENT\n\nThis agreement is made between " ++ A ++ " (Lessor) and " ++ B ++
    " (Lessee).\n\n1. Property: " ++ pyOptionalField data.property_address ++
    "\n2. Duration: " ++ D ++ "\n3. Legal Clause: " ++ clause ++
    "\n4. Jurisdiction: " ++ J ++ "\n\nSigned: " ++ A ++ ", " ++ B
  else if T = "mou" then
    "MEMORANDUM OF UNDERSTANDING\n\nThis MoU is entered into by " ++ A ++ " and " ++ B ++
    ".\n\n1. Term: " ++ D ++ "\n2. Understanding: As per mutual discussion\n3. Legal Clause: " ++
    clause ++ "\n4. Jurisdiction: " ++ J ++ "\n\nSigned: " ++ A ++ ", " ++ B
  else if T = "noncompete" then
    "NON-COMPETE AGREEMENT\n\nThis agreement is between " ++ A ++ " and " ++ B ++
    ".\n\n1. Duration: " ++ D ++ "\n2. Scope: " ++ pyOptionalField data.scope ++
    "\n3. Legal Clause: " ++ clause ++ "\n4. Jurisdiction: " ++ J ++
    "\n\nSigned: " ++ A ++ ", " ++ B
  else "Invalid contract type."

/-- The ASCII apostrophe character. -/
def apostrophe : Char := Char.ofNat 39

/-- Python `str.replace(old, new)` in the case the code uses it: `old` is a
single character, so the replacement is character-wise and
non-overlapping. -/
def pyReplaceChar (old : Char) (new : List Char) (cs : List Char) : List Char :=
  cs.flatMap (fun c => if c = old then new else [c])

/-- The normalization chain at the top of `save_as_pdf`
(src/contractpdf.py:259-262), on character lists:
`content.replace(rsq, apos).replace(ldq, qq).replace(rdq, qq).replace(rupee, "Rs.")`
where `rsq` is U+2019, `ldq` U+201C, `rdq` U+201D and `rupee` U+20B9. -/
def normalizeChain (cs : List Char) : List Char :=
  pyReplaceChar '₹' "Rs.".data
    (pyReplaceChar '”' ['"']
      (pyReplaceChar '“' ['"']
        (pyReplaceChar '’' [apostrophe] cs)))

/-- The normalization chain at the top of `save_as_pdf`
(src/contractpdf.py:259-262), as a string transformation. -/
def save_as_pdf_content (content : String) : String :=
  ⟨normalizeChain content.data⟩

/-- The per-character action the normalization chain amounts to: the four
special characters are rewritten, every other character maps to itself. -/
def normChar (c : Char) : List Char :=
  if c = '’' then [apostrophe]
  else if c = '“' then ['"']
  else if c = '”' then ['"']
  else if c = '₹' then "Rs.".data
  else [c]

/-- The two fields of the GoFile JSON body that `generate_contract` reads:
`res_json.get("status")` and `res_json["data"]["downloadPage"]`.  Either may
be absent from the actual body, hence `Option`. -/
structure UploadBody where
  status : Option String
  downloadPage : Option String
deriving DecidableEq, Repr

/-- Outcome of `requests.post(...)` in `generate_contract`: the HTTP status
code together with the result of `upload_res.json()` (which raises if the
body is not JSON, hence `Except`). -/
structure UploadResponse where
  status_code : Nat
  json : Except String UploadBody
deriving Repr

/-- The success payload returned by `generate_contract`
(src/contractpdf.py:308-312). -/
structure GenSuccess where
  message : String
  contract : String
  pdf_url : String
deriving DecidableEq, Repr

/-- Rendering of an `UploadBody` used in the `f"Gofile error: {res_json}"`
message. -/
def bodyRepr (b : UploadBody) : String :=
  "status=" ++ pyOptionalField b.status ++ " downloadPage=" ++ pyOptionalField b.downloadPage

/-- The body of the `try:` block of `generate_contract`
(src/contractpdf.py:285-312).  `refineResponse` is the chat-completion
oracle, `fileResult` the combined outcome of `save_as_pdf` plus reopening
the file (`Except.error` if FPDF or file I/O raised), and `uploadResult`
the outcome of `requests.post`. -/
def contract_pipeline (data : ContractRequest)
    (refineResponse : Except String String)
    (fileResult : Except String Unit)
    (uploadResult : Except String UploadResponse) : Except String GenSuccess :=
  match retrieve_clause data.clause_query data.contract_type with
  | Except.error e => Except.error e
  | Except.ok raw_clause =>
    match refine_clause_with_legal_expertise raw_clause data.contract_type refineResponse with
    | Except.error e => Except.error e
    | Except.ok refined_clause =>
      let contract_text := get_legal_template data refined_clause
      match fileResult with
      | Except.error e => Except.error e
      | Except.ok _ =>
        match uploadResult with
        | Except.error e => Except.error e
        | Except.ok upload_res =>
          if upload_res.status_code ≠ 200 then
            Except.error ("Upload failed: " ++ toString upload_res.status_code)
          else
            match upload_res.json with
            | Except.error e => Except.error e
            | Except.ok res_json =>
              if res_json.status ≠ some "ok" then
                Except.error ("Gofile error: " ++ bodyRepr res_json)
              else
                match res_json.downloadPage with
                | none => Except.error "KeyError"
                | some file_url =>
                  Except.ok
                    { message := "Contract generated and uploaded."
                      contract := contract_text
                      pdf_url := file_url }

/-- `generate_contract` (src/contractpdf.py:283-315): the `try/except`
wrapper that turns any pipeline exception `e` into
`HTTPException(status_code=400, detail=f"Contract generation failed: {str(e)}")`,
embedded as an `Except.error` carrying the detail string. -/
def generate_contract (data : ContractRequest)
    (refineResponse : Except String String)
    (fileResult : Except String Unit)
    (uploadResult : Except String UploadResponse) : Except String GenSuccess :=
  match contract_pipeline data refineResponse fileResult uploadResult with
  | Except.ok r => Except.ok r
  | Except.error e => Except.error ("Contract generation failed: " ++ e)

/-- Example request used to instantiate the theorems with hypotheses
(scenario A of the spec). -/
def exampleRequest : ContractRequest :=
  { contract_type := "nda"
    party_a := "Acme Inc"
    party_b := "Beta LLC"
    duration := "2 years"
    clause_query := "confidentiality"
    jurisdiction := "New Delhi" }

/-- Example lease request with no `property_address` (scenario C of the
spec). -/
def exampleLeaseRequest : ContractRequest :=
  { contract_type := "lease"
    party_a := "Acme Inc"
    party_b := "Beta LLC"
    duration := "2 years"
    clause_query := "property"
    jurisdiction := "New Delhi" }

/-- Example successful upload response
(`{"status": "ok", "data": {"downloadPage": "https://example/x"}}`). -/
def exampleUpload : UploadResponse :=
  { status_code := 200, json := Except.ok ⟨some "ok", some "https://example/x"⟩ }

/-- The success value `generate_contract` produces on `exampleRequest` with
a refinement oracle answering `"Confidential information shall be protected."`
and `exampleUpload` as the upload outcome. -/
def exampleSuccess : GenSuccess :=
  { message := "Contract generated and uploaded."
    contract := get_legal_template exampleRequest
      ⟨pyStrip "Confidential information shall be protected.".data⟩
    pdf_url := "https://example/x" }

/-! ## Helper lemmas -/

theorem infix_head {α : Type} (x t : List α) : x <:+: x ++ t :=
  ⟨[], t, by simp⟩

theorem infix_append_right {α : Type} {x t : List α} (s : List α) (h : x <:+: t) :
    x <:+: s ++ t := by
  obtain ⟨u, v, huv⟩ := h
  exact ⟨s ++ u, v, by rw [← huv]; simp⟩

theorem infix_append_left {α : Type} {x s : List α} (t : List α) (h : x <:+: s) :
    x <:+: s ++ t :=
  h.trans (List.prefix_append s t).isInfix

theorem string_ne_of_prefix (p : String) {s t : String}
    (hp : p.data <+: s.data) (hnp : ¬ p.data <+: t.data) : s ≠ t :=
  fun he => hnp (he ▸ hp)

/-- `retrieve_clause` never hits the `IndexError` branch: every resolved
clause list is one of the four non-empty literal lists. -/
theorem retrieve_clause_eq (q t : String) :
    retrieve_clause q t =
      Except.ok (((specialized_clause_banks t).getD default_clauses).headI) := by
  rw [retrieve_clause, specialized_clause_banks]
  split_ifs <;> rfl

/-! ## Claim theorems -/

/-- C7: validation of `party_a`/`party_b` succeeds exactly for strings of
length at least 2 (regardless of content), and fails with the
`ValidationError` message exactly for strings shorter than 2 characters
(the empty string included; an *absent* required field is rejected by
pydantic before the validator runs). -/
theorem validate_party_names_spec (v : String) :
    (validate_party_names v = Except.ok v ↔ 2 ≤ v.length) ∧
    ((∃ e, validate_party_names v = Except.error e) ↔ v.length < 2) := by
  rw [validate_party_names]
  split
  next h =>
    have hlt : v.length < 2 := by
      rcases h with h | h
      · subst h; decide
      · exact h
    constructor
    · exact ⟨fun he => absurd he (fun he => Except.noConfusion he), fun h2 => absurd hlt (by omega)⟩
    · exact ⟨fun _ => hlt, fun _ => ⟨_, rfl⟩⟩
  next h =>
    push_neg at h
    constructor
    · exact ⟨fun _ => by omega, fun _ => rfl⟩
    · constructor
      · rintro ⟨e, he⟩; exact absurd he (fun he => Except.noConfusion he)
      · intro h2; exact absurd h2 (by omega)

/-- C2: `retrieve_clause` (the spec's `select_clause`) returns the first
entry of the clause list resolved for the contract type — the specialized
bank for `nda`/`employment`/`noncompete`, the shared default list
otherwise — never fails, and is independent of the query argument. -/
theorem retrieve_clause_spec (q q' t : String) :
    retrieve_clause q t =
      Except.ok (((specialized_clause_banks t).getD default_clauses).headI) ∧
    retrieve_clause q t = retrieve_clause q' t :=
  ⟨retrieve_clause_eq q t, rfl⟩

/-- C5: whatever the outcomes of the refinement call, the PDF rendering /
file I/O and the upload, `generate_contract` either returns a success value
or a single error whose detail string is `"Contract generation failed: "`
followed by the cause — and in the error case no success payload
(contract text, pdf_url) is returned. -/
theorem generate_contract_failure_spec (data : ContractRequest)
    (rf : Except String String) (fl : Except String Unit)
    (up : Except String UploadResponse) :
    (∃ r : GenSuccess, generate_contract data rf fl up = Except.ok r) ∨
    (∃ cause, generate_contract data rf fl up =
        Except.error ("Contract generation failed: " ++ cause) ∧
      ∀ r : GenSuccess, generate_contract data rf fl up ≠ Except.ok r) := by
  rw [generate_contract]
  cases contract_pipeline data rf fl up with
  | ok r => exact Or.inl ⟨r, rfl⟩
  | error e => exact Or.inr ⟨e, rfl, fun r hr => Except.noConfusion hr⟩

/-- One step of the normalization chain on a single leading character:
the four replaced characters never reappear in any replacement text, so the
four sequential passes act on each character independently. -/
theorem normalizeChain_cons (c : Char) (l : List Char) :
    normalizeChain (c :: l) = normChar c ++ normalizeChain l := by
  by_cases h1 : c = '’'
  · subst h1; simp [normalizeChain, pyReplaceChar, normChar, apostrophe]
  · by_cases h2 : c = '“'
    · subst h2; simp [normalizeChain, pyReplaceChar, normChar, h1]
    · by_cases h3 : c = '”'
      · subst h3; simp [normalizeChain, pyReplaceChar, normChar]
      · by_cases h4 : c = '₹'
        · subst h4; simp [normalizeChain, pyReplaceChar, normChar]
        · simp [normalizeChain, pyReplaceChar, normChar, h1, h2, h3, h4]

/-- C4: the pre-render normalization of `save_as_pdf` maps each character
independently — every right single quotation mark becomes an ASCII
apostrophe, every left/right double quotation mark a plain double quote,
every rupee sign the text `Rs.`, and every other character is kept
unchanged, in order. -/
theorem save_as_pdf_content_spec (s : String) :
    (save_as_pdf_content s).data = s.data.flatMap normChar := by
  show normalizeChain s.data = s.data.flatMap normChar
  induction s.data with
  | nil => rfl
  | cons c l ih => rw [normalizeChain_cons, ih, List.flatMap_cons]

/-- C9: looking up a template for a `contract_type` outside the nine
recognized literals returns the sentinel string `"Invalid contract type."`
rather than raising, and for every type that passes input validation
(membership in `contractTypes`, pydantic's `Literal` check) the sentinel is
never returned. -/
theorem invalid_type_sentinel_spec :
    (∀ (data : ContractRequest) (clause : String),
        data.contract_type ∉ contractTypes →
        get_legal_template data clause = "Invalid contract type.") ∧
    (∀ (data : ContractRequest) (clause : String),
        data.contract_type ∈ contractTypes →
        get_legal_template data clause ≠ "Invalid contract type.") := by
  constructor
  · intro data clause h
    simp only [contractTypes, List.mem_cons, List.not_mem_nil, or_false] at h
    push_neg at h
    obtain ⟨h1, h2, h3, h4, h5, h6, h7, h8, h9⟩ := h
    simp [get_legal_template, h1, h2, h3, h4, h5, h6, h7, h8, h9]
  · intro data clause h
    simp only [contractTypes, List.mem_cons, List.not_mem_nil, or_false] at h
    rcases h with h | h | h | h | h | h | h | h | h
    · refine string_ne_of_prefix "NO" ?_ (by decide)
      simp only [get_legal_template, h, String.reduceEq, reduceIte, String.data_append,
        List.append_assoc]
      exact List.IsPrefix.trans (by decide) (List.prefix_append _ _)
    · refine string_ne_of_prefix "IN" ?_ (by decide)
      simp only [get_legal_template, h, String.reduceEq, reduceIte, String.data_append,
        List.append_assoc]
      exact List.IsPrefix.trans (by decide) (List.prefix_append _ _)
    · refine string_ne_of_prefix "SE" ?_ (by decide)
      simp only [get_legal_template, h, String.reduceEq, reduceIte, String.data_append,
        List.append_assoc]
      exact List.IsPrefix.trans (by decide) (List.prefix_append _ _)
    · refine string_ne_of_prefix "PA" ?_ (by decide)
      simp only [get_legal_template, h, String.reduceEq, reduceIte, String.data_append,
        List.append_assoc]
      exact List.IsPrefix.trans (by decide) (List.prefix_append _ _)
    · refine string_ne_of_prefix "SA" ?_ (by decide)
      simp only [get_legal_template, h, String.reduceEq, reduceIte, String.data_append,
        List.append_assoc]
      exact List.IsPrefix.trans (by decide) (List.prefix_append _ _)
    · refine string_ne_of_prefix "EM" ?_ (by decide)
      simp only [get_legal_template, h, String.reduceEq, reduceIte, String.data_append,
        List.append_assoc]
      exact List.IsPrefix.trans (by decide) (List.prefix_append _ _)
    · refine string_ne_of_prefix "LE" ?_ (by decide)
      simp only [get_legal_template, h, String.reduceEq, reduceIte, String.data_append,
        List.append_assoc]
      exact List.IsPrefix.trans (by decide) (List.prefix_append _ _)
    · refine string_ne_of_prefix "ME" ?_ (by decide)
      simp only [get_legal_template, h, String.reduceEq, reduceIte, String.data_append,
        List.append_assoc]
      exact List.IsPrefix.trans (by decide) (List.prefix_append _ _)
    · refine string_ne_of_prefix "NO" ?_ (by decide)
      simp only [get_legal_template, h, String.reduceEq, reduceIte, String.data_append,
        List.append_assoc]
      exact List.IsPrefix.trans (by decide) (List.prefix_append _ _)

/-- C9 witness: a concrete unknown type gets the sentinel; a concrete
recognized type does not. -/
theorem invalid_type_sentinel_spec_witness :
    get_legal_template
        { contract_type := "warranty", party_a := "Acme Inc", party_b := "Beta LLC",
          duration := "2 years", clause_query := "q" } "some clause" =
      "Invalid contract type." ∧
    get_legal_template exampleRequest "some clause" ≠ "Invalid contract type." :=
  ⟨invalid_type_sentinel_spec.1 _ _ (by decide),
   invalid_type_sentinel_spec.2 exampleRequest "some clause" (by decide)⟩

/-- C3: template assembly is deterministic (equal inputs give equal output)
and, for every request whose `contract_type` passed validation, the output
contains `party_a`, `party_b`, the duration, the refined clause text and
the jurisdiction verbatim as substrings. -/
theorem get_legal_template_spec (data d₂ : ContractRequest) (clause c₂ : String)
    (hty : data.contract_type ∈ contractTypes) (hd : d₂ = data) (hc : c₂ = clause) :
    get_legal_template d₂ c₂ = get_legal_template data clause ∧
    data.party_a.data <:+: (get_legal_template data clause).data ∧
    data.party_b.data <:+: (get_legal_template data clause).data ∧
    data.duration.data <:+: (get_legal_template data clause).data ∧
    clause.data <:+: (get_legal_template data clause).data ∧
    data.jurisdiction.data <:+: (get_legal_template data clause).data := by
  subst hd; subst hc
  refine ⟨rfl, ?_⟩
  simp only [contractTypes, List.mem_cons, List.not_mem_nil, or_false] at hty
  rcases hty with h | h | h | h | h | h | h | h | h <;>
    · simp only [get_legal_template, h, String.reduceEq, reduceIte, String.data_append,
        List.append_assoc]
      refine ⟨?_, ?_, ?_, ?_, ?_⟩ <;>
        (repeat first
          | exact infix_head _ _
          | exact List.infix_refl _
          | apply infix_append_right)

/-- C3 witness: the containment facts at the concrete scenario-A request. -/
theorem get_legal_template_spec_witness :
    get_legal_template exampleRequest "some clause" =
      get_legal_template exampleRequest "some clause" ∧
    exampleRequest.party_a.data <:+: (get_legal_template exampleRequest "some clause").data ∧
    exampleRequest.party_b.data <:+: (get_legal_template exampleRequest "some clause").data ∧
    exampleRequest.duration.data <:+: (get_legal_template exampleRequest "some clause").data ∧
    ("some clause" : String).data <:+: (get_legal_template exampleRequest "some clause").data ∧
    exampleRequest.jurisdiction.data <:+: (get_legal_template exampleRequest "some clause").data :=
  get_legal_template_spec exampleRequest exampleRequest "some clause" "some clause"
    (by decide) rfl rfl

/-- C8: assembling a validated lease request with no `property_address`
does not fail: the template lookup still succeeds (no sentinel) and the
property line's slot renders Python's placeholder text for the absent
value (`None`). -/
theorem lease_missing_property_spec (data : ContractRequest) (clause : String)
    (hty : data.contract_type = "lease") (hprop : data.property_address = none) :
    get_legal_template data clause ≠ "Invalid contract type." ∧
    get_legal_template data clause =
      "LEASE AGREEMENT\n\nThis agreement is made between " ++ data.party_a ++
      " (Lessor) and " ++ data.party_b ++ " (Lessee).\n\n1. Property: " ++ "None" ++
      "\n2. Duration: " ++ data.duration ++ "\n3. Legal Clause: " ++ clause ++
      "\n4. Jurisdiction: " ++ data.jurisdiction ++ "\n\nSigned: " ++ data.party_a ++
      ", " ++ data.party_b := by
  constructor
  · refine string_ne_of_prefix "LE" ?_ (by decide)
    simp only [get_legal_template, hty, String.reduceEq, reduceIte, String.data_append,
      List.append_assoc]
    exact List.IsPrefix.trans (by decide) (List.prefix_append _ _)
  · simp [get_legal_template, hty, hprop, pyOptionalField]

/-- C8 witness: scenario C at the concrete example lease request. -/
theorem lease_missing_property_spec_witness :
    get_legal_template exampleLeaseRequest "some clause" ≠ "Invalid contract type." ∧
    get_legal_template exampleLeaseRequest "some clause" =
      "LEASE AGREEMENT\n\nThis agreement is made between " ++ exampleLeaseRequest.party_a ++
      " (Lessor) and " ++ exampleLeaseRequest.party_b ++ " (Lessee).\n\n1. Property: " ++ "None" ++
      "\n2. Duration: " ++ exampleLeaseRequest.duration ++ "\n3. Legal Clause: " ++ "some clause" ++
      "\n4. Jurisdiction: " ++ exampleLeaseRequest.jurisdiction ++ "\n\nSigned: " ++
      exampleLeaseRequest.party_a ++ ", " ++ exampleLeaseRequest.party_b :=
  lease_missing_property_spec exampleLeaseRequest "some clause" rfl rfl

/-- Whenever the pipeline reaches a success value, its `contract` field is
the template built from the request and the stripped refinement answer. -/
theorem pipeline_ok_contract (data : ContractRequest) (content : String)
    (fl : Except String Unit) (up : Except String UploadResponse) (r : GenSuccess)
    (hp : contract_pipeline data (Except.ok content) fl up = Except.ok r) :
    r.contract = get_legal_template data ⟨pyStrip content.data⟩ := by
  rw [contract_pipeline, retrieve_clause_eq] at hp
  simp only [refine_clause_with_legal_expertise] at hp
  repeat' split at hp
  all_goals first
    | exact Except.noConfusion hp
    | (injection hp with hh; subst hh; rfl)

/-- No character of a normalized string is one of the four replaced
glyphs. -/
theorem mem_normalizeChain_spec (c : Char) (s : List Char)
    (hc : c ∈ normalizeChain s) :
    c ≠ '’' ∧ c ≠ '“' ∧ c ≠ '”' ∧ c ≠ '₹' := by
  induction s with
  | nil => simp [normalizeChain, pyReplaceChar] at hc
  | cons a l ih =>
    rw [normalizeChain_cons] at hc
    rcases List.mem_append.mp hc with hc | hc
    · by_cases h1 : a = '’'
      · subst h1
        have hca : c = apostrophe := by simpa [normChar] using hc
        subst hca; refine ⟨by decide, by decide, by decide, by decide⟩
      · by_cases h2 : a = '“'
        · subst h2
          have hca : c = '"' := by simpa [normChar] using hc
          subst hca; refine ⟨by decide, by decide, by decide, by decide⟩
        · by_cases h3 : a = '”'
          · subst h3
            have hca : c = '"' := by simpa [normChar] using hc
            subst hca; refine ⟨by decide, by decide, by decide, by decide⟩
          · by_cases h4 : a = '₹'
            · subst h4
              have hca : c = 'R' ∨ c = 's' ∨ c = '.' := by simpa [normChar] using hc
              rcases hca with hca | hca | hca <;>
                (subst hca; refine ⟨by decide, by decide, by decide, by decide⟩)
            · simp only [normChar, h1, h2, h3, h4, if_false, List.mem_singleton,
                reduceIte] at hc
              subst hc; exact ⟨h1, h2, h3, h4⟩
    · exact ih hc

/-- C6 counterexample: an upload outcome with HTTP status 200 and body
status `"ok"` but no `data.downloadPage` field still makes the request
fail (the code raises `KeyError`), contradicting the claimed
"fails if and only if HTTP is not success or status is not ok". -/
theorem upload_step_counterexample :
    generate_contract exampleRequest (Except.ok "some clause") (Except.ok ())
        (Except.ok { status_code := 200, json := Except.ok ⟨some "ok", none⟩ }) =
      Except.error "Contract generation failed: KeyError" := by
  rfl

/-- C6 (amended): with the earlier stages succeeding and a JSON body, the
upload step succeeds iff the HTTP status is 200, the body status is `"ok"`
*and* the body's `data.downloadPage` field is present; when the HTTP status
is not 200 the failure detail contains `"Upload failed"`; and on success
the response's `pdf_url` is exactly the body's `downloadPage` value. -/
theorem upload_step_amended (data : ContractRequest) (content : String)
    (sc : Nat) (body : UploadBody) :
    ((∃ r, generate_contract data (Except.ok content) (Except.ok ())
        (Except.ok ⟨sc, Except.ok body⟩) = Except.ok r) ↔
      (sc = 200 ∧ body.status = some "ok" ∧ ∃ u, body.downloadPage = some u)) ∧
    (sc ≠ 200 → ∃ e, generate_contract data (Except.ok content) (Except.ok ())
        (Except.ok ⟨sc, Except.ok body⟩) = Except.error e ∧
      "Upload failed".data <:+: e.data) ∧
    (∀ r u, generate_contract data (Except.ok content) (Except.ok ())
        (Except.ok ⟨sc, Except.ok body⟩) = Except.ok r →
      body.downloadPage = some u → r.pdf_url = u) := by
  have hpipe : contract_pipeline data (Except.ok content) (Except.ok ())
      (Except.ok ⟨sc, Except.ok body⟩) =
      if sc ≠ 200 then Except.error ("Upload failed: " ++ toString sc)
      else if body.status ≠ some "ok" then
        Except.error ("Gofile error: " ++ bodyRepr body)
      else
        match body.downloadPage with
        | none => Except.error "KeyError"
        | some file_url =>
          Except.ok
            { message := "Contract generated and uploaded."
              contract := get_legal_template data ⟨pyStrip content.data⟩
              pdf_url := file_url } := by
    rw [contract_pipeline, retrieve_clause_eq]
    rfl
  by_cases hsc : sc = 200
  · subst hsc
    by_cases hst : body.status = some "ok"
    · cases hdp : body.downloadPage with
      | none =>
        have hgc : generate_contract data (Except.ok content) (Except.ok ())
            (Except.ok ⟨200, Except.ok body⟩) =
            Except.error ("Contract generation failed: " ++ "KeyError") := by
          rw [generate_contract, hpipe]
          simp [hst, hdp]
        refine ⟨?_, ?_, ?_⟩
        · rw [hgc]
          constructor
          · rintro ⟨r, hr⟩; exact Except.noConfusion hr
          · rintro ⟨-, -, u, hu⟩; exact Option.noConfusion hu
        · intro hne; exact absurd rfl hne
        · intro r u hr; rw [hgc] at hr; exact absurd hr (fun hh => Except.noConfusion hh)
      | some u₀ =>
        have hgc : generate_contract data (Except.ok content) (Except.ok ())
            (Except.ok ⟨200, Except.ok body⟩) =
            Except.ok
              { message := "Contract generated and uploaded."
                contract := get_legal_template data ⟨pyStrip content.data⟩
                pdf_url := u₀ } := by
          rw [generate_contract, hpipe]
          simp [hst, hdp]
        refine ⟨?_, ?_, ?_⟩
        · exact ⟨fun _ => ⟨rfl, hst, u₀, rfl⟩, fun _ => ⟨_, hgc⟩⟩
        · intro hne; exact absurd rfl hne
        · intro r u hr hu
          rw [hgc] at hr
          injection hr with hh
          injection hu with hu
          rw [← hh, ← hu]
    · have hgc : generate_contract data (Except.ok content) (Except.ok ())
          (Except.ok ⟨200, Except.ok body⟩) =
          Except.error ("Contract generation failed: " ++
            ("Gofile error: " ++ bodyRepr body)) := by
        rw [generate_contract, hpipe]
        simp [hst]
      refine ⟨?_, ?_, ?_⟩
      · rw [hgc]
        constructor
        · rintro ⟨r, hr⟩; exact Except.noConfusion hr
        · rintro ⟨-, hst2, -⟩; exact absurd hst2 hst
      · intro hne; exact absurd rfl hne
      · intro r u hr; rw [hgc] at hr; exact absurd hr (fun hh => Except.noConfusion hh)
  · have hgc : generate_contract data (Except.ok content) (Except.ok ())
        (Except.ok ⟨sc, Except.ok body⟩) =
        Except.error ("Contract generation failed: " ++
          ("Upload failed: " ++ toString sc)) := by
      rw [generate_contract, hpipe]
      simp [hsc]
    refine ⟨?_, ?_, ?_⟩
    · rw [hgc]
      constructor
      · rintro ⟨r, hr⟩; exact Except.noConfusion hr
      · rintro ⟨hsc2, -⟩; exact absurd hsc2 hsc
    · intro _
      refine ⟨_, hgc, ?_⟩
      have hdata : ("Contract generation failed: " ++ ("Upload failed: " ++ toString sc)).data =
          ("Contract generation failed: ".data ++ "Upload failed: ".data) ++ (toString sc).data := by
        simp [String.data_append, List.append_assoc]
      rw [hdata]
      exact infix_append_left _ (by decide)
    · intro r u hr; rw [hgc] at hr; exact absurd hr (fun hh => Except.noConfusion hh)

/-- C6 amended witness: a stubbed HTTP 500 upload yields a failure whose
detail contains "Upload failed" (scenario B). -/
theorem upload_step_amended_witness :
    ∃ e, generate_contract exampleRequest (Except.ok "some clause") (Except.ok ())
        (Except.ok ⟨500, Except.ok ⟨some "ok", some "https://example/x"⟩⟩) =
      Except.error e ∧ "Upload failed".data <:+: e.data :=
  (upload_step_amended exampleRequest "some clause" 500
    ⟨some "ok", some "https://example/x"⟩).2.1 (by decide)

/-- C10: on success the returned `contract` field is exactly the assembled
template text, with no pre-render normalization applied; the normalization
is applied only to the text rendered into the PDF, where none of the four
replaced glyphs survives. -/
theorem contract_field_unnormalized (data : ContractRequest) (content : String)
    (fl : Except String Unit) (up : Except String UploadResponse) (r : GenSuccess)
    (h : generate_contract data (Except.ok content) fl up = Except.ok r) :
    r.contract = get_legal_template data ⟨pyStrip content.data⟩ ∧
    ∀ c ∈ (save_as_pdf_content r.contract).data,
      c ≠ '’' ∧ c ≠ '“' ∧ c ≠ '”' ∧ c ≠ '₹' := by
  have hp : contract_pipeline data (Except.ok content) fl up = Except.ok r := by
    rw [generate_contract] at h
    cases hpp : contract_pipeline data (Except.ok content) fl up with
    | ok r' => rw [hpp] at h; injection h with hh; rw [hh]
    | error e => rw [hpp] at h; exact Except.noConfusion h
  exact ⟨pipeline_ok_contract data content fl up r hp,
    fun c hc => mem_normalizeChain_spec c r.contract.data hc⟩

/-- C10 witness: the concrete scenario-A success run returns the
unnormalized template text. -/
theorem contract_field_unnormalized_witness :
    exampleSuccess.contract =
      get_legal_template exampleRequest
        ⟨pyStrip "Confidential information shall be protected.".data⟩ :=
  (contract_field_unnormalized exampleRequest
    "Confidential information shall be protected." (Except.ok ())
    (Except.ok exampleUpload) exampleSuccess (by rfl)).1

/-! ## The duration pattern -/

theorem takeWhile_append_all {p : Char → Bool} {a : List Char} (b : List Char)
    (ha : ∀ c ∈ a, p c = true) : (a ++ b).takeWhile p = a ++ b.takeWhile p := by
  induction a with
  | nil => simp
  | cons x xs ih =>
    have hx : p x = true := ha x (List.mem_cons_self x xs)
    simp [List.takeWhile_cons, hx,
      ih (fun c hc => ha c (List.mem_cons_of_mem x hc))]

theorem dropWhile_append_all {p : Char → Bool} {a : List Char} (b : List Char)
    (ha : ∀ c ∈ a, p c = true) : (a ++ b).dropWhile p = b.dropWhile p := by
  induction a with
  | nil => simp
  | cons x xs ih =>
    have hx : p x = true := ha x (List.mem_cons_self x xs)
    simp [List.dropWhile_cons, hx,
      ih (fun c hc => ha c (List.mem_cons_of_mem x hc))]

theorem takeWhile_dropWhile_self (p : Char → Bool) (l : List Char) :
    (l.dropWhile p).takeWhile p = [] := by
  induction l with
  | nil => rfl
  | cons x xs ih =>
    by_cases hx : p x = true
    · simp [List.dropWhile_cons, hx, ih]
    · simp only [Bool.not_eq_true] at hx
      simp [List.dropWhile_cons, List.takeWhile_cons, hx]

theorem dropWhile_dropWhile_self (p : Char → Bool) (l : List Char) :
    (l.dropWhile p).dropWhile p = l.dropWhile p := by
  induction l with
  | nil => rfl
  | cons x xs ih =>
    by_cases hx : p x = true
    · simp [List.dropWhile_cons, hx, ih]
    · simp only [Bool.not_eq_true] at hx
      simp [List.dropWhile_cons, hx]

theorem isPySpace_not_digit {c : Char} (h : isPySpace c = true) :
    isPyDigit c = false := by
  simp only [isPySpace, Bool.or_eq_true, beq_iff_eq] at h
  rcases h with ((((h | h) | h) | h) | h) | h <;> subst h <;> decide

/-- The scanner of the duration matcher on an explicit decomposition
`digits ++ (spaces ++ tail)`: it isolates precisely `tail`, so both
matchers reduce to their final alternation test on `tail`. -/
theorem duration_scan (ds sp tail : List Char)
    (hdigit : ∀ c ∈ ds, isPyDigit c = true)
    (hspace : ∀ c ∈ sp, isPySpace c = true)
    (hds : ds ≠ []) (hsp : sp ≠ [])
    (htsp : tail.takeWhile isPySpace = [])
    (htdp : tail.dropWhile isPySpace = tail) :
    duration_match_list (ds ++ (sp ++ tail)) =
      durationUnits.any (fun u => tail == u.data || tail == u.data ++ ['\n']) ∧
    duration_whole_list (ds ++ (sp ++ tail)) =
      durationUnits.any (fun u => tail == u.data) := by
  obtain ⟨d0, ds', rfl⟩ := List.exists_cons_of_ne_nil hds
  obtain ⟨s0, sp', rfl⟩ := List.exists_cons_of_ne_nil hsp
  have hs0 : isPySpace s0 = true := hspace s0 (List.mem_cons_self _ _)
  have hd0 : isPyDigit s0 = false := isPySpace_not_digit hs0
  have hin1 : (((s0 :: sp') ++ tail).takeWhile isPyDigit) = [] := by
    rw [List.cons_append, List.takeWhile_cons]
    simp [hd0]
  have hin2 : (((s0 :: sp') ++ tail).dropWhile isPyDigit) = (s0 :: sp') ++ tail := by
    rw [List.cons_append, List.dropWhile_cons]
    simp [hd0]
  have e1 : (((d0 :: ds') ++ ((s0 :: sp') ++ tail)).takeWhile isPyDigit) = d0 :: ds' := by
    rw [takeWhile_append_all _ hdigit, hin1]
    simp
  have e2 : (((d0 :: ds') ++ ((s0 :: sp') ++ tail)).dropWhile isPyDigit) =
      (s0 :: sp') ++ tail := by
    rw [dropWhile_append_all _ hdigit, hin2]
  have e3 : (((s0 :: sp') ++ tail).takeWhile isPySpace) = s0 :: sp' := by
    rw [takeWhile_append_all _ hspace, htsp]
    simp
  have e4 : (((s0 :: sp') ++ tail).dropWhile isPySpace) = tail := by
    rw [dropWhile_append_all _ hspace, htdp]
  constructor
  · simp only [duration_match_list, e1, e2, e3, e4, List.isEmpty_cons,
      Bool.not_false, Bool.true_and]
  · simp only [duration_whole_list, e1, e2, e3, e4, List.isEmpty_cons,
      Bool.not_false, Bool.true_and]

/-- The tail facts needed by `duration_scan` for a unit of the alternation,
with and without a trailing newline. -/
theorem durationUnits_tail_facts {u : String} (hu : u ∈ durationUnits) :
    u.data.takeWhile isPySpace = [] ∧ u.data.dropWhile isPySpace = u.data ∧
    (u.data ++ ['\n']).takeWhile isPySpace = [] ∧
    (u.data ++ ['\n']).dropWhile isPySpace = u.data ++ ['\n'] := by
  have hu' : u = "year" ∨ u = "years" ∨ u = "month" ∨ u = "months" ∨
      u = "day" ∨ u = "days" := by
    simpa [durationUnits] using hu
  rcases hu' with rfl | rfl | rfl | rfl | rfl | rfl <;>
    exact ⟨by decide, by decide, by decide, by decide⟩

/-- The matcher accepts exactly the whole-string matches of the pattern
plus those matches followed by one trailing newline. -/
theorem duration_match_iff (cs : List Char) :
    duration_match_list cs = true ↔
      (duration_whole_list cs = true ∨
        ∃ t : List Char, duration_whole_list t = true ∧ cs = t ++ ['\n']) := by
  constructor
  · intro h
    simp only [duration_match_list, Bool.and_eq_true, Bool.not_eq_true',
      List.isEmpty_eq_false, List.any_eq_true, Bool.or_eq_true, beq_iff_eq] at h
    obtain ⟨⟨hds, hsp⟩, u, hu, hcase⟩ := h
    rcases hcase with h1 | h1
    · refine Or.inl ?_
      simp only [duration_whole_list, Bool.and_eq_true, Bool.not_eq_true',
        List.isEmpty_eq_false, List.any_eq_true, Bool.or_eq_true, beq_iff_eq]
      exact ⟨⟨hds, hsp⟩, u, hu, h1⟩
    · refine Or.inr ?_
      obtain ⟨hf1, hf2, -, -⟩ := durationUnits_tail_facts hu
      have hdigit : ∀ c ∈ cs.takeWhile isPyDigit, isPyDigit c = true :=
        fun c hc => List.mem_takeWhile_imp hc
      have hspace : ∀ c ∈ (cs.dropWhile isPyDigit).takeWhile isPySpace,
          isPySpace c = true := fun c hc => List.mem_takeWhile_imp hc
      have hscan := duration_scan (cs.takeWhile isPyDigit)
        ((cs.dropWhile isPyDigit).takeWhile isPySpace) u.data
        hdigit hspace hds hsp hf1 hf2
      refine ⟨cs.takeWhile isPyDigit ++
        ((cs.dropWhile isPyDigit).takeWhile isPySpace ++ u.data), ?_, ?_⟩
      · rw [hscan.2]
        simp only [List.any_eq_true, Bool.or_eq_true, beq_iff_eq]
        exact ⟨u, hu, rfl⟩
      · conv_lhs => rw [← List.takeWhile_append_dropWhile isPyDigit cs,
          ← List.takeWhile_append_dropWhile isPySpace (cs.dropWhile isPyDigit)]
        rw [h1]
        simp [List.append_assoc]
  · rintro (hw | ⟨t, hw, rfl⟩)
    · simp only [duration_whole_list, Bool.and_eq_true, Bool.not_eq_true',
        List.isEmpty_eq_false, List.any_eq_true, beq_iff_eq] at hw
      obtain ⟨⟨hds, hsp⟩, u, hu, h1⟩ := hw
      simp only [duration_match_list, Bool.and_eq_true, Bool.not_eq_true',
        List.isEmpty_eq_false, List.any_eq_true, Bool.or_eq_true, beq_iff_eq]
      exact ⟨⟨hds, hsp⟩, u, hu, Or.inl h1⟩
    · simp only [duration_whole_list, Bool.and_eq_true, Bool.not_eq_true',
        List.isEmpty_eq_false, List.any_eq_true, beq_iff_eq] at hw
      obtain ⟨⟨hds, hsp⟩, u, hu, h1⟩ := hw
      obtain ⟨-, -, hf3, hf4⟩ := durationUnits_tail_facts hu
      have hdigit : ∀ c ∈ t.takeWhile isPyDigit, isPyDigit c = true :=
        fun c hc => List.mem_takeWhile_imp hc
      have hspace : ∀ c ∈ (t.dropWhile isPyDigit).takeWhile isPySpace,
          isPySpace c = true := fun c hc => List.mem_takeWhile_imp hc
      have ht : t = t.takeWhile isPyDigit ++
          ((t.dropWhile isPyDigit).takeWhile isPySpace ++ u.data) := by
        conv_lhs => rw [← List.takeWhile_append_dropWhile isPyDigit t,
          ← List.takeWhile_append_dropWhile isPySpace (t.dropWhile isPyDigit)]
        rw [h1]
      have hscan := duration_scan (t.takeWhile isPyDigit)
        ((t.dropWhile isPyDigit).takeWhile isPySpace) (u.data ++ ['\n'])
        hdigit hspace hds hsp hf3 hf4
      have hcs : t ++ ['\n'] = t.takeWhile isPyDigit ++
          ((t.dropWhile isPyDigit).takeWhile isPySpace ++ (u.data ++ ['\n'])) := by
        conv_lhs => rw [ht]
        simp [List.append_assoc]
      rw [hcs, hscan.1]
      simp only [List.any_eq_true, Bool.or_eq_true, beq_iff_eq]
      exact ⟨u, hu, Or.inr rfl⟩

/-- C1 counterexample: the string `"5 years\n"` is not a whole-string
match of `\d+\s+(year|years|month|months|day|days)` — `duration_whole_list`
rejects it — yet `validate_duration` accepts it, because Python's `$`
also matches just before a single trailing newline. -/
theorem validate_duration_counterexample :
    validate_duration "5 years\n" = Except.ok "5 years\n" ∧
    duration_whole_list "5 years\n".data = false := by
  exact ⟨rfl, by decide⟩

/-- C1 (amended): `validate_duration` succeeds exactly on the strings that
match `\d+\s+(year|years|month|months|day|days)` as a whole string, or are
such a whole-string match followed by one trailing newline (the extra case
Python's `$` anchor admits); it fails on every other string. -/
theorem validate_duration_amended (s : String) :
    validate_duration s = Except.ok s ↔
      (duration_whole_list s.data = true ∨
        ∃ t : List Char, duration_whole_list t = true ∧ s.data = t ++ ['\n']) := by
  rw [validate_duration, ← duration_match_iff s.data]
  split
  next hm => exact ⟨fun _ => hm, fun _ => rfl⟩
  next hm =>
    constructor
    · intro he; exact Except.noConfusion he
    · intro hmm; simp only [Bool.not_eq_true] at hm; rw [hm] at hmm; exact Bool.noConfusion hmm

end ContractPdf
